import Mathlib

/-
Verification of the research pipeline in `research_agent.py` (class
`ResearchAgent`).  The Python code is shallowly embedded: Python strings
become Lean `String`, Python lists become Lean `List`, the two external
collaborators (Tavily search, Gemini LLM) become function parameters
returning `Except String _` (an `Except.error e` models the call raising an
exception whose `str` is `e`), and each provider invocation is recorded in
an explicit `Event` trace so that claims about which calls happen can be
stated.  Float relevance scores are modelled as `Rat`; the code never does
arithmetic on them, it only stores and serializes them.  File I/O (writing
the markdown/JSON artifacts, logging, console printing) is outside the
embedded core: `save_markdown_report` and `save_json_data` are embedded as
the pure content builders for the two artifacts.
-/

/-- One search result, from `SearchResult` (research_agent.py lines 36-42). -/
structure SearchResult where
  title : String
  url : String
  content : String
  score : Rat
deriving DecidableEq

/-- The aggregate research record, from `ResearchData` (lines 45-54).
The free-form `raw_data` dict is modelled as an association list. -/
structure ResearchData where
  topic : String
  timestamp : String
  trend_results : List SearchResult
  problem_results : List SearchResult
  question_results : List SearchResult
  analysis : String
  raw_data : List (String × String)
deriving DecidableEq

/-- One raw Tavily result item.  The Python code reads each field with
`item.get(key, default)`, so every field may be absent (line 174-180). -/
structure TavilyItem where
  title : Option String
  url : Option String
  content : Option String
  score : Option Rat

/-- The Tavily response dict; the code reads `response.get("results", [])`
(line 174), so the results key may be absent. -/
structure TavilyResponse where
  results : Option (List TavilyItem)

/-- The search provider boundary: `(query, max_results)` to either a
response or a raised exception (modelled as `Except.error` carrying
`str(e)`). -/
abbrev SearchProvider : Type := String → Nat → Except String TavilyResponse

/-- The LLM provider boundary: `(model, prompt)` to either the response
text or a raised exception. -/
abbrev LlmProvider : Type := String → String → Except String String

/-- A provider invocation, used to trace which external calls the pipeline
performs. -/
inductive Event where
  | searchCall : String → Nat → Event
  | llmCall : String → String → Event
deriving DecidableEq

/-- Whether an event is an LLM-provider invocation. -/
def Event.isLlm : Event → Bool
  | .llmCall _ _ => true
  | .searchCall _ _ => false

/-- Number of LLM-provider invocations in a trace. -/
def countLlmCalls (tr : List Event) : Nat :=
  (tr.filter Event.isLlm).length

/-- The query set returned by `_generate_queries`: a dict with exactly the
three keys `trend`, `problem`, `question` (lines 143-147). -/
structure QuerySet where
  trend : String
  problem : String
  question : String
deriving DecidableEq

/-- `ResearchAgent._generate_queries` (lines 131-150).  `current_year` is
`datetime.now().year` in the source, passed explicitly here; the f-string
interpolation of the int renders it as `Nat.repr`.  The apostrophes of the
problem query are written `\x27`. -/
def generate_queries (topic : String) (current_year : Nat) : QuerySet where
  trend := topic ++ " latest trends news " ++ Nat.repr current_year
  problem := "site:reddit.com " ++ topic
    ++ " \x27struggling with\x27 OR \x27hate\x27 OR \x27hard to\x27 OR \x27problem with\x27"
  question := topic ++ " how to fix OR alternative to OR best solution for"

/-- Conversion of one raw item to a `SearchResult`, from the loop body at
lines 175-180: each field read with `item.get(key, default)`. -/
def mkSearchResult (item : TavilyItem) : SearchResult where
  title := item.title.getD ""
  url := item.url.getD ""
  content := item.content.getD ""
  score := item.score.getD 0

/-- `ResearchAgent._execute_search` (lines 152-187).  The whole body is a
try/except: a raising provider call is caught and the function returns the
empty list (line 185-187); a successful response is converted item by item
in provider order.  The second component records the single Tavily call
the function performs. -/
def execute_search (provider : SearchProvider) (query : String) (max_results : Nat) :
    List SearchResult × List Event :=
  (match provider query max_results with
    | .error _ => []
    | .ok response => (response.results.getD []).map mkSearchResult,
   [Event.searchCall query max_results])

/-- Python `str.strip()` whitespace test, on the ASCII whitespace set
(space, tab, newline, carriage return, vertical tab, form feed).  The
strings the pipeline strips are its own generated content, which contains
no other Unicode whitespace. -/
def isPySpace (c : Char) : Bool :=
  c == ' ' || c == '\t' || c == '\n' || c == '\r' || c == '\x0b' || c == '\x0c'

/-- Python `str.strip()` on the character list: drop whitespace from both
ends. -/
def stripChars (l : List Char) : List Char :=
  ((l.dropWhile isPySpace).reverse.dropWhile isPySpace).reverse

/-- Python `str.strip()`. -/
def pyStrip (s : String) : String :=
  String.mk (stripChars s.data)

/-- Python `sep.join(xs)`. -/
def pyJoin (sep : String) : List String → String
  | [] => ""
  | [s] => s
  | s :: t :: rest => s ++ sep ++ pyJoin sep (t :: rest)

/-- The per-result lines appended by each rendering loop of
`_prepare_content_for_analysis` (lines 204-207, 212-215, 220-223):
`enumerate(results, 1)` renders each result with its 1-based index, title,
URL and content snippet. -/
def result_lines (label : String) : Nat → List SearchResult → List String
  | _, [] => []
  | i, r :: rs =>
    ("\n[" ++ label ++ " " ++ Nat.repr i ++ "] " ++ r.title)
      :: ("Kaynak: " ++ r.url)
      :: ("İçerik: " ++ r.content ++ "\n")
      :: result_lines label (i + 1) rs

/-- `ResearchAgent._prepare_content_for_analysis` (lines 189-225): three
optional labeled sections, in the fixed order trend, problem, question,
each contributed only when its bucket is non-empty (`if data.xxx_results:`),
joined with newlines (line 225). -/
def prepare_content_for_analysis (data : ResearchData) : String :=
  let s1 : List String :=
    if data.trend_results = [] then []
    else "=== TREND VE HABER SONUÇLARI ===" :: result_lines "Trend" 1 data.trend_results
  let s2 : List String :=
    if data.problem_results = [] then []
    else "\n=== SORUN VE ŞİKAYET SONUÇLARI (Reddit/Forum) ==="
      :: result_lines "Şikayet" 1 data.problem_results
  let s3 : List String :=
    if data.question_results = [] then []
    else "\n=== SORU VE ÇÖZÜM ARAMA SONUÇLARI ===" :: result_lines "Soru" 1 data.question_results
  pyJoin "\n" (s1 ++ s2 ++ s3)

/-- `ResearchAgent.ANALYSIS_SYSTEM_PROMPT` (lines 66-86). -/
def ANALYSIS_SYSTEM_PROMPT : String :=
  "Sen bir ürün geliştirme danışmanısın ve pazar araştırması uzmanısın.\n\nSana verilen arama sonuçlarını dikkatlice analiz et ve şu başlıklar altında detaylı bir rapor hazırla:\n\n## 📈 Yükselen Trendler\nBu alandaki güncel ve yükselen trendleri listele. Hangi teknolojiler, yaklaşımlar veya çözümler popülerlik kazanıyor?\n\n## 😤 Kullanıcı Şikayetleri ve Acı Noktaları (Pain Points)\nİnsanların bu konuyla ilgili en çok neyi zor bulduğunu, neden şikayet ettiğini ve hangi sorunlarla karşılaştığını belirt. \nSpesifik örnekler ve alıntılar varsa onları da ekle.\n\n## 💡 Fırsat Alanları\nBu sorunlara çözüm olabilecek potansiyel ürün veya hizmet fırsatlarını belirle.\nHangi boşluklar doldurulabilir? Hangi ihtiyaçlar karşılanmamış?\n\n## 🎯 Öneriler\nBir girişimci veya ürün geliştirici olarak bu bilgilerden nasıl yararlanılabilir? \n3-5 maddelik aksiyon önerileri sun.\n\nRaporunu Türkçe olarak, profesyonel ve okunabilir bir formatta hazırla.\nMaddeler halinde, emoji kullanarak ve net bir dille yaz."

/-- The prompt built by `_analyze_with_llm` (lines 241-250). -/
def buildPrompt (topic content : String) : String :=
  ANALYSIS_SYSTEM_PROMPT
    ++ "\n\n---\n\nAraştırılan Konu: " ++ topic
    ++ "\n\nAşağıda bu konu hakkında toplanan arama sonuçları bulunmaktadır. \nLütfen bunları analiz et ve yukarıdaki formatta bir rapor hazırla.\n\n"
    ++ content

/-- `ResearchAgent._analyze_with_llm` (lines 227-263).  The body is a
try/except: on success the response text is stripped (line 257), on any
exception the function returns an error message embedding `str(e)`
(line 263).  The second component records the single LLM call made. -/
def analyze_with_llm (llm : LlmProvider) (model content topic : String) :
    String × List Event :=
  let prompt := buildPrompt topic content
  (match llm model prompt with
    | .ok text => pyStrip text
    | .error e => "Analiz sırasında bir hata oluştu: " ++ e,
   [Event.llmCall model prompt])

/-- The loop of `_format_url_list` (lines 330-332): one markdown link line
per result, in bucket order. -/
def format_url_lines : List SearchResult → List String
  | [] => []
  | r :: rs => ("- [" ++ r.title ++ "](" ++ r.url ++ ")") :: format_url_lines rs

/-- `ResearchAgent._format_url_list` (lines 325-333): the fixed placeholder
for an empty bucket, else the link lines joined with newlines. -/
def format_url_list (results : List SearchResult) : String :=
  if results = [] then "- Sonuç bulunamadı"
  else pyJoin "\n" (format_url_lines results)

/-- The markdown `report_content` built by `_save_markdown_report`
(lines 280-317); writing it to disk is I/O outside the embedded core.
Interpolated ints render via `Nat.repr`. -/
def save_markdown_report (data : ResearchData) : String :=
  "# 🔍 Pazar Araştırma Raporu\n\n**Konu:** " ++ data.topic
    ++ "  \n**Tarih:** " ++ data.timestamp
    ++ "  \n**Oluşturan:** Market & Trend Research Agent\n\n---\n\n"
    ++ data.analysis
    ++ "\n\n---\n\n## 📊 Araştırma İstatistikleri\n\n| Kategori | Sonuç Sayısı |\n|----------|--------------|\n| Trend Sonuçları | "
    ++ Nat.repr data.trend_results.length
    ++ " |\n| Sorun/Şikayet Sonuçları | "
    ++ Nat.repr data.problem_results.length
    ++ " |\n| Soru/Çözüm Sonuçları | "
    ++ Nat.repr data.question_results.length
    ++ " |\n"
    ++ ("| **Toplam** | **"
      ++ Nat.repr (data.trend_results.length + data.problem_results.length
        + data.question_results.length)
      ++ "** |")
    ++ "\n\n---\n\n## 🔗 Kaynak URL\x27leri\n\n### Trend Kaynakları\n"
    ++ format_url_list data.trend_results
    ++ "\n\n### Sorun/Şikayet Kaynakları\n"
    ++ format_url_list data.problem_results
    ++ "\n\n### Soru/Çözüm Kaynakları\n"
    ++ format_url_list data.question_results
    ++ "\n\n---\n\n*Bu rapor, Market & Trend Research Agent tarafından otomatik olarak oluşturulmuştur.*\n"

/-- The JSON values produced by `json.dump`.  Python ints and floats are
kept apart (`json.dump` renders them differently). -/
inductive Json where
  | str : String → Json
  | num : Rat → Json
  | nat : Nat → Json
  | arr : List Json → Json
  | obj : List (String × Json) → Json

/-- `dataclasses.asdict` on a `SearchResult` (line 354-356). -/
def searchResultToJson (r : SearchResult) : Json :=
  .obj [("title", .str r.title), ("url", .str r.url),
    ("content", .str r.content), ("score", .num r.score)]

/-- Key lookup in a JSON object field list. -/
def jsonLookup : List (String × Json) → String → Option Json
  | [], _ => none
  | (k, v) :: rest, key => if k = key then some v else jsonLookup rest key

/-- Field access on a JSON value: defined on objects only. -/
def Json.getField : Json → String → Option Json
  | .obj fields, key => jsonLookup fields key
  | _, _ => none

/-- The `json_data` dict built by `_save_json_data` (lines 351-366);
writing it to disk is I/O outside the embedded core.  Note the dict has
exactly the keys topic, timestamp, the three buckets, analysis and
metadata: the record's `raw_data` field is not serialized. -/
def save_json_data (model : String) (data : ResearchData) : Json :=
  .obj [
    ("topic", .str data.topic),
    ("timestamp", .str data.timestamp),
    ("trend_results", .arr (data.trend_results.map searchResultToJson)),
    ("problem_results", .arr (data.problem_results.map searchResultToJson)),
    ("question_results", .arr (data.question_results.map searchResultToJson)),
    ("analysis", .str data.analysis),
    ("metadata", .obj [
      ("model_used", .str model),
      ("total_results", .nat (data.trend_results.length + data.problem_results.length
        + data.question_results.length))])]

/-- The analysis stage of `ResearchAgent.research` (lines 438-446):
normalize the record, then either short-circuit with the fixed
insufficient-data message when the stripped content is empty
(`if not content.strip():`, lines 440-442) or call the LLM once
(line 446).  The trace records the LLM calls this stage performs. -/
def research_analysis_stage (llm : LlmProvider) (model topic : String)
    (data : ResearchData) : ResearchData × List Event :=
  let content := prepare_content_for_analysis data
  if pyStrip content = "" then
    ({ data with analysis := "Üzgünüz, bu konu hakkında yeterli veri bulunamadı." }, [])
  else
    let an := analyze_with_llm llm model content topic
    ({ data with analysis := an.1 }, an.2)

/-- `ResearchAgent.research` (lines 391-460), restricted to its pipeline
core: build the record, run the three searches (lines 424-435), then the
analysis stage (lines 438-446).  `timestamp` and `year` stand for the two
`datetime.now()` reads; report printing and file saving are I/O glue.
The trace collects the provider calls in program order. -/
def research (search : SearchProvider) (llm : LlmProvider)
    (model topic timestamp : String) (year max_results_per_query : Nat) :
    ResearchData × List Event :=
  let queries := generate_queries topic year
  let tr := execute_search search queries.trend max_results_per_query
  let pr := execute_search search queries.problem max_results_per_query
  let qu := execute_search search queries.question max_results_per_query
  let data : ResearchData :=
    { topic := topic, timestamp := timestamp, trend_results := tr.1,
      problem_results := pr.1, question_results := qu.1, analysis := "", raw_data := [] }
  let st := research_analysis_stage llm model topic data
  (st.1, tr.2 ++ pr.2 ++ qu.2 ++ st.2)

/-- Spec-side rendering of one result entry of a normalized section:
1-based index, title, source URL, content snippet, in that order
(spec section 4.3). -/
def specRenderItem (label : String) (p : Nat × SearchResult) : List String :=
  ["\n[" ++ label ++ " " ++ Nat.repr p.1 ++ "] " ++ p.2.title,
   "Kaynak: " ++ p.2.url,
   "İçerik: " ++ p.2.content ++ "\n"]

/-- Spec-side rendering of one labeled section: header and body present
exactly when the bucket is non-empty, entries indexed from 1 in bucket
order (spec section 4.3). -/
def specSection (header label : String) (rs : List SearchResult) : List String :=
  if rs = [] then [] else header :: (List.enumFrom 1 rs).flatMap (specRenderItem label)

-- Sanity checks of the embedding on concrete inputs.

example : generate_queries "x" 2026 =
    ⟨"x latest trends news 2026",
     "site:reddit.com x \x27struggling with\x27 OR \x27hate\x27 OR \x27hard to\x27 OR \x27problem with\x27",
     "x how to fix OR alternative to OR best solution for"⟩ := by
  decide

example : pyStrip "  a b\n" = "a b" := by decide

example :
    prepare_content_for_analysis
      ⟨"t", "ts", [⟨"T1", "u1", "c1", 0⟩], [], [⟨"Q1", "u3", "c3", 0⟩], "", []⟩
    = "=== TREND VE HABER SONUÇLARI ===\n\n[Trend 1] T1\nKaynak: u1\nİçerik: c1\n\n\n=== SORU VE ÇÖZÜM ARAMA SONUÇLARI ===\n\n[Soru 1] Q1\nKaynak: u3\nİçerik: c3\n" := by
  decide

example : format_url_list [] = "- Sonuç bulunamadı" := by decide

example : format_url_list [⟨"A", "ua", "", 0⟩, ⟨"B", "ub", "", 0⟩]
    = "- [A](ua)\n- [B](ub)" := by decide

-- Helper lemmas shared by the claim theorems.

/-- Appending strings appends their character lists. -/
theorem data_append (s t : String) : (s ++ t).data = s.data ++ t.data := by
  cases s; cases t; rfl

/-- String concatenation is associative. -/
theorem strAppend_assoc (a b c : String) : a ++ b ++ c = a ++ (b ++ c) :=
  String.ext (by simp [data_append])

/-- A string whose character list has a last character is not empty. -/
theorem ne_empty_of_getLast (s : String) (c : Char) (h : s.data.getLast? = some c) :
    s ≠ "" := by
  intro he
  subst he
  simp at h

/-- With positive fuel, `Nat.toDigitsCore` appends the digit of `n % b`
just before the accumulator. -/
theorem toDigitsCore_digit_suffix (b : Nat) :
    ∀ (fuel n : Nat) (ds : List Char), fuel ≠ 0 →
      ∃ l, Nat.toDigitsCore b fuel n ds = l ++ (Nat.digitChar (n % b) :: ds) := by
  intro fuel
  induction fuel with
  | zero => intro n ds h; exact absurd rfl h
  | succ f ih =>
    intro n ds _
    simp only [Nat.toDigitsCore]
    by_cases h0 : n / b = 0
    · refine ⟨[], ?_⟩
      simp [h0]
    · rw [if_neg h0]
      cases f with
      | zero =>
        refine ⟨[], ?_⟩
        simp [Nat.toDigitsCore]
      | succ f2 =>
        obtain ⟨l, hl⟩ := ih (n / b) (Nat.digitChar (n % b) :: ds) (by simp)
        refine ⟨l ++ [Nat.digitChar (n / b % b)], ?_⟩
        rw [hl]
        simp

/-- The last character of the decimal rendering of a natural number is the
digit character of `y % 10`. -/
theorem repr_getLast (y : Nat) :
    (Nat.repr y).data.getLast? = some (Nat.digitChar (y % 10)) := by
  obtain ⟨l, hl⟩ := toDigitsCore_digit_suffix 10 (y + 1) y [] (by simp)
  show (Nat.toDigits 10 y).getLast? = _
  unfold Nat.toDigits
  rw [hl]
  simp [List.getLast?_append]

/-- A decimal digit character is neither an apostrophe nor the letter r. -/
theorem digitChar_mod10_ne (y : Nat) :
    Nat.digitChar (y % 10) ≠ '\x27' ∧ Nat.digitChar (y % 10) ≠ 'r' := by
  have h : y % 10 < 10 := Nat.mod_lt _ (by omega)
  set m := y % 10 with hm
  clear_value m
  interval_cases m <;> exact ⟨by decide, by decide⟩

/-- If a Python strip leaves nothing, every character was whitespace. -/
theorem stripChars_eq_nil (l : List Char) (hh : stripChars l = []) :
    ∀ c ∈ l, isPySpace c := by
  unfold stripChars at hh
  rw [List.reverse_eq_nil_iff, List.dropWhile_eq_nil_iff] at hh
  intro c hc
  have hc2 : c ∈ l.takeWhile isPySpace ++ l.dropWhile isPySpace := by
    rw [List.takeWhile_append_dropWhile]; exact hc
  rcases List.mem_append.mp hc2 with h1 | h2
  · exact List.mem_takeWhile_imp h1
  · exact hh c (List.mem_reverse.mpr h2)

/-- A character of any element of a joined list is a character of the
joined string. -/
theorem mem_pyJoin (sep : String) (c : Char) : ∀ (xs : List String) (x : String),
    x ∈ xs → c ∈ x.data → c ∈ (pyJoin sep xs).data := by
  intro xs
  induction xs with
  | nil => intro x hx; simp at hx
  | cons y ys ih =>
    intro x hx hc
    cases ys with
    | nil =>
      simp at hx
      subst hx
      simpa [pyJoin] using hc
    | cons z zs =>
      have hdata : (pyJoin sep (y :: z :: zs)).data
          = y.data ++ sep.data ++ (pyJoin sep (z :: zs)).data := by
        simp [pyJoin, data_append]
      rcases List.mem_cons.mp hx with h1 | h2
      · subst h1
        rw [hdata]
        exact List.mem_append.mpr (Or.inl (List.mem_append.mpr (Or.inl hc)))
      · rw [hdata]
        exact List.mem_append.mpr (Or.inr (ih x h2 hc))

/-- The rendering loop of the normalizer agrees with the spec-side
enumerated rendering. -/
theorem result_lines_eq (label : String) (rs : List SearchResult) : ∀ i : Nat,
    result_lines label i rs = (List.enumFrom i rs).flatMap (specRenderItem label) := by
  induction rs with
  | nil => intro i; rfl
  | cons r rs ih =>
    intro i
    simp [result_lines, List.enumFrom, specRenderItem, List.flatMap, ih]

/-- The URL rendering loop is a map over the bucket. -/
theorem format_url_lines_eq (rs : List SearchResult) :
    format_url_lines rs = rs.map (fun r => "- [" ++ r.title ++ "](" ++ r.url ++ ")") := by
  induction rs with
  | nil => rfl
  | cons r rs ih => simp [format_url_lines, ih]

/-- `asdict` on a search result loses no field. -/
theorem searchResultToJson_injective : Function.Injective searchResultToJson := by
  intro r r2 h
  simp only [searchResultToJson, Json.obj.injEq, List.cons.injEq, Prod.mk.injEq,
    Json.str.injEq, Json.num.injEq, true_and, and_true] at h
  obtain ⟨h1, h2, h3, h4⟩ := h
  cases r; cases r2
  simp_all

/-- A non-empty trend bucket puts an equals sign (from its section header)
into the normalized content. -/
theorem eq_mem_prepare_of_trend (d : ResearchData) (h : d.trend_results ≠ []) :
    '=' ∈ (prepare_content_for_analysis d).data := by
  simp only [prepare_content_for_analysis]
  apply mem_pyJoin "\n" '=' _ "=== TREND VE HABER SONUÇLARI ==="
  · simp [h]
  · decide

/-- A non-empty problem bucket puts an equals sign (from its section
header) into the normalized content. -/
theorem eq_mem_prepare_of_problem (d : ResearchData) (h : d.problem_results ≠ []) :
    '=' ∈ (prepare_content_for_analysis d).data := by
  simp only [prepare_content_for_analysis]
  apply mem_pyJoin "\n" '=' _ "\n=== SORUN VE ŞİKAYET SONUÇLARI (Reddit/Forum) ==="
  · simp [h]
  · decide

/-- A non-empty question bucket puts an equals sign (from its section
header) into the normalized content. -/
theorem eq_mem_prepare_of_question (d : ResearchData) (h : d.question_results ≠ []) :
    '=' ∈ (prepare_content_for_analysis d).data := by
  simp only [prepare_content_for_analysis]
  apply mem_pyJoin "\n" '=' _ "\n=== SORU VE ÇÖZÜM ARAMA SONUÇLARI ==="
  · simp [h]
  · decide

/-- If the stripped normalized content is empty, all three buckets are
empty. -/
theorem buckets_empty_of_strip_empty (d : ResearchData)
    (h : pyStrip (prepare_content_for_analysis d) = "") :
    d.trend_results = [] ∧ d.problem_results = [] ∧ d.question_results = [] := by
  have hs : stripChars (prepare_content_for_analysis d).data = [] := by
    have h2 := congrArg String.data h
    simpa [pyStrip] using h2
  have hall := stripChars_eq_nil _ hs
  refine ⟨?_, ?_, ?_⟩
  · by_contra hne
    have := hall '=' (eq_mem_prepare_of_trend d hne)
    simp [isPySpace] at this
  · by_contra hne
    have := hall '=' (eq_mem_prepare_of_problem d hne)
    simp [isPySpace] at this
  · by_contra hne
    have := hall '=' (eq_mem_prepare_of_question d hne)
    simp [isPySpace] at this

/-- If all three buckets are empty, the normalized content is the empty
string. -/
theorem prepare_empty_of_buckets_empty (d : ResearchData)
    (h1 : d.trend_results = []) (h2 : d.problem_results = [])
    (h3 : d.question_results = []) :
    prepare_content_for_analysis d = "" := by
  simp [prepare_content_for_analysis, h1, h2, h3, pyJoin]

-- Claim theorems.

/-- Claim C1: if the Tavily call for a query raises, `_execute_search`
catches the exception and returns the empty bucket, and the run proceeds:
the other two buckets of the final record are exactly their own search
results. -/
theorem c1_provider_failure_degrades_bucket
    (search : SearchProvider) (llm : LlmProvider)
    (model topic ts : String) (year n : Nat) (e : String)
    (h : search ((generate_queries topic year).trend) n = Except.error e) :
    (research search llm model topic ts year n).1.trend_results = [] ∧
    (research search llm model topic ts year n).1.problem_results
      = (execute_search search ((generate_queries topic year).problem) n).1 ∧
    (research search llm model topic ts year n).1.question_results
      = (execute_search search ((generate_queries topic year).question) n).1 ∧
    ∀ (provider : SearchProvider) (q : String) (m : Nat) (err : String),
      provider q m = Except.error err → (execute_search provider q m).1 = [] := by
  have hex : ∀ (provider : SearchProvider) (q : String) (m : Nat) (err : String),
      provider q m = Except.error err → (execute_search provider q m).1 = [] := by
    intro p q m err hp
    simp [execute_search, hp]
  refine ⟨?_, ?_, ?_, hex⟩
  · simp only [research, research_analysis_stage]
    split <;> simp [execute_search, h]
  · simp only [research, research_analysis_stage]
    split <;> rfl
  · simp only [research, research_analysis_stage]
    split <;> rfl

/-- Witness for C1: a provider that always raises yields an empty trend
bucket in the final record. -/
theorem c1_witness :
    (research (fun _ _ => Except.error "boom") (fun _ _ => Except.ok "rapor")
      "gemini-2.5-flash" "kahve" "2026-01-01" 2026 5).1.trend_results = [] :=
  (c1_provider_failure_degrades_bucket (fun _ _ => Except.error "boom")
    (fun _ _ => Except.ok "rapor") "gemini-2.5-flash" "kahve" "2026-01-01" 2026 5
    "boom" rfl).1

/-- Claim C2: if the LLM call raises, `_analyze_with_llm` catches the
exception and returns the fixed error message with the failure text
appended, which is in particular non-empty; no exception propagates (the
embedded function is total). -/
theorem c2_llm_failure_embedded_message (llm : LlmProvider)
    (model content topic e : String)
    (h : llm model (buildPrompt topic content) = Except.error e) :
    (analyze_with_llm llm model content topic).1
        = "Analiz sırasında bir hata oluştu: " ++ e ∧
      (analyze_with_llm llm model content topic).1 ≠ "" := by
  have h1 : (analyze_with_llm llm model content topic).1
      = "Analiz sırasında bir hata oluştu: " ++ e := by
    simp [analyze_with_llm, h]
  refine ⟨h1, ?_⟩
  rw [h1]
  intro hc
  have h2 := congrArg String.data hc
  rw [data_append] at h2
  rcases List.append_eq_nil.mp h2 with ⟨h3, _⟩
  exact absurd h3 (by decide)

/-- Witness for C2: an always-raising LLM provider produces the embedded
error message. -/
theorem c2_witness :
    (analyze_with_llm (fun _ _ => Except.error "kota aşıldı") "m" "c" "t").1
      = "Analiz sırasında bir hata oluştu: " ++ "kota aşıldı" :=
  (c2_llm_failure_embedded_message (fun _ _ => Except.error "kota aşıldı")
    "m" "c" "t" "kota aşıldı" rfl).1

/-- Claim C3: the analysis stage short-circuits on empty-after-strip
content with the fixed insufficient-data message and zero LLM calls;
otherwise the analysis is the LLM result and exactly one LLM call is
made. -/
theorem c3_short_circuit_insufficient_data (llm : LlmProvider)
    (model topic : String) (data : ResearchData) :
    (pyStrip (prepare_content_for_analysis data) = "" →
      (research_analysis_stage llm model topic data).1.analysis
          = "Üzgünüz, bu konu hakkında yeterli veri bulunamadı." ∧
        countLlmCalls (research_analysis_stage llm model topic data).2 = 0) ∧
    (pyStrip (prepare_content_for_analysis data) ≠ "" →
      (research_analysis_stage llm model topic data).1.analysis
          = (analyze_with_llm llm model (prepare_content_for_analysis data) topic).1 ∧
        countLlmCalls (research_analysis_stage llm model topic data).2 = 1) := by
  constructor
  · intro h
    simp only [research_analysis_stage]
    rw [if_pos h]
    exact ⟨rfl, rfl⟩
  · intro h
    simp only [research_analysis_stage]
    rw [if_neg h]
    exact ⟨rfl, rfl⟩

/-- Witness for C3: with all buckets empty the stage returns the fixed
insufficient-data message. -/
theorem c3_witness :
    (research_analysis_stage (fun _ _ => Except.ok "rapor") "m" "t"
      ⟨"t", "ts", [], [], [], "", []⟩).1.analysis
      = "Üzgünüz, bu konu hakkında yeterli veri bulunamadı." :=
  ((c3_short_circuit_insufficient_data (fun _ _ => Except.ok "rapor") "m" "t"
    ⟨"t", "ts", [], [], [], "", []⟩).1 (by decide)).1

/-- Counterexample for C4 as stated: two records differing only in their
free-form `raw_data` map serialize to the same JSON dict, so the data form
does not contain every field of the record and is not lossless on
`raw_data`. -/
theorem c4_counterexample_raw_data_dropped :
    save_json_data "gemini-2.5-flash" ⟨"t", "ts", [], [], [], "a", [("k", "v")]⟩
        = save_json_data "gemini-2.5-flash" ⟨"t", "ts", [], [], [], "a", []⟩ ∧
      (⟨"t", "ts", [], [], [], "a", [("k", "v")]⟩ : ResearchData)
        ≠ ⟨"t", "ts", [], [], [], "a", []⟩ :=
  ⟨rfl, by decide⟩

/-- Claim C4 (amended): the data form mirrors the record losslessly on
topic, timestamp, the three result sequences field-for-field and the
analysis text, and carries the metadata block with the model identifier
and the grand-total result count; the free-form `raw_data` map is not
serialized. -/
theorem c4_dataform_mirrors_except_raw_data (m : String) (d d2 : ResearchData)
    (h : save_json_data m d = save_json_data m d2) :
    d.topic = d2.topic ∧ d.timestamp = d2.timestamp ∧
      d.trend_results = d2.trend_results ∧ d.problem_results = d2.problem_results ∧
      d.question_results = d2.question_results ∧ d.analysis = d2.analysis ∧
      (save_json_data m d).getField "metadata"
        = some (Json.obj [("model_used", Json.str m),
            ("total_results", Json.nat (d.trend_results.length
              + d.problem_results.length + d.question_results.length))]) := by
  simp only [save_json_data, Json.obj.injEq, List.cons.injEq, Prod.mk.injEq,
    Json.str.injEq, Json.arr.injEq, Json.nat.injEq, true_and, and_true] at h
  obtain ⟨h1, h2, h3, h4, h5, h6, h7⟩ := h
  exact ⟨h1, h2, List.map_injective_iff.mpr searchResultToJson_injective h3,
    List.map_injective_iff.mpr searchResultToJson_injective h4,
    List.map_injective_iff.mpr searchResultToJson_injective h5, h6, rfl⟩

/-- Witness for C4 (amended): applied at a concrete record equal to
itself, recovering the metadata block with total count 1. -/
theorem c4_witness :
    (save_json_data "gemini-2.5-flash"
        ⟨"t", "ts", [⟨"A", "u", "c", 1⟩], [], [], "a", []⟩).getField "metadata"
      = some (Json.obj [("model_used", Json.str "gemini-2.5-flash"),
          ("total_results", Json.nat (([⟨"A", "u", "c", 1⟩] :
            List SearchResult).length + ([] : List SearchResult).length
            + ([] : List SearchResult).length))]) :=
  (c4_dataform_mirrors_except_raw_data "gemini-2.5-flash"
    ⟨"t", "ts", [⟨"A", "u", "c", 1⟩], [], [], "a", []⟩
    ⟨"t", "ts", [⟨"A", "u", "c", 1⟩], [], [], "a", []⟩ rfl).2.2.2.2.2.2

/-- Claim C5: for a non-empty topic and any year the planner yields three
non-empty, pairwise distinct queries, and the mapping is deterministic in
(topic, year). -/
theorem c5_query_planner_three_distinct (topic : String) (year : Nat)
    (h : topic ≠ "") :
    (generate_queries topic year).trend ≠ "" ∧
    (generate_queries topic year).problem ≠ "" ∧
    (generate_queries topic year).question ≠ "" ∧
    (generate_queries topic year).trend ≠ (generate_queries topic year).problem ∧
    (generate_queries topic year).trend ≠ (generate_queries topic year).question ∧
    (generate_queries topic year).problem ≠ (generate_queries topic year).question ∧
    ∀ (topic2 : String) (year2 : Nat), topic2 = topic → year2 = year →
      generate_queries topic2 year2 = generate_queries topic year := by
  have htr : (generate_queries topic year).trend.data.getLast?
      = some (Nat.digitChar (year % 10)) := by
    show (topic ++ " latest trends news " ++ Nat.repr year).data.getLast? = _
    rw [data_append, data_append]
    simp only [List.getLast?_append]
    rw [repr_getLast]
    rfl
  have hpr : (generate_queries topic year).problem.data.getLast? = some '\x27' := by
    show ("site:reddit.com " ++ topic
      ++ " \x27struggling with\x27 OR \x27hate\x27 OR \x27hard to\x27 OR \x27problem with\x27").data.getLast? = _
    rw [data_append, data_append]
    rw [List.getLast?_append]
    rw [show (" \x27struggling with\x27 OR \x27hate\x27 OR \x27hard to\x27 OR \x27problem with\x27" : String).data.getLast? = some '\x27' from by decide]
    rfl
  have hqu : (generate_queries topic year).question.data.getLast? = some 'r' := by
    show (topic ++ " how to fix OR alternative to OR best solution for").data.getLast? = _
    rw [data_append]
    rw [List.getLast?_append]
    rw [show (" how to fix OR alternative to OR best solution for" : String).data.getLast? = some 'r' from by decide]
    rfl
  refine ⟨ne_empty_of_getLast _ _ htr, ne_empty_of_getLast _ _ hpr,
    ne_empty_of_getLast _ _ hqu, ?_, ?_, ?_, ?_⟩
  · intro he
    have hl := congrArg List.getLast? (congrArg String.data he)
    rw [htr, hpr] at hl
    exact absurd (Option.some.inj hl) (digitChar_mod10_ne year).1
  · intro he
    have hl := congrArg List.getLast? (congrArg String.data he)
    rw [htr, hqu] at hl
    exact absurd (Option.some.inj hl) (digitChar_mod10_ne year).2
  · intro he
    have hl := congrArg List.getLast? (congrArg String.data he)
    rw [hpr, hqu] at hl
    exact absurd (Option.some.inj hl) (by decide)
  · intro topic2 year2 ht hy
    rw [ht, hy]

/-- Witness for C5: the concrete topic kahve in 2026 yields distinct
queries. -/
theorem c5_witness :
    (generate_queries "kahve" 2026).trend ≠ (generate_queries "kahve" 2026).problem :=
  (c5_query_planner_three_distinct "kahve" 2026 (by decide)).2.2.2.1

/-- Claim C6: the normalizer output is the newline-join of the three
spec-side sections in fixed trend, problem, question order, where a
section contributes its header and 1-indexed entries (title, URL, snippet
in that order) exactly when its bucket is non-empty; with all buckets
empty the output is the empty string. -/
theorem c6_normalize_structure (d : ResearchData) :
    prepare_content_for_analysis d
        = pyJoin "\n"
          (specSection "=== TREND VE HABER SONUÇLARI ===" "Trend" d.trend_results
            ++ specSection "\n=== SORUN VE ŞİKAYET SONUÇLARI (Reddit/Forum) ===" "Şikayet"
              d.problem_results
            ++ specSection "\n=== SORU VE ÇÖZÜM ARAMA SONUÇLARI ===" "Soru"
              d.question_results) ∧
      (d.trend_results = [] ∧ d.problem_results = [] ∧ d.question_results = [] →
        prepare_content_for_analysis d = "") := by
  constructor
  · simp only [prepare_content_for_analysis, specSection, result_lines_eq]
  · rintro ⟨h1, h2, h3⟩
    exact prepare_empty_of_buckets_empty d h1 h2 h3

/-- Witness for C6: a record with three empty buckets normalizes to the
empty string. -/
theorem c6_witness :
    prepare_content_for_analysis ⟨"konu", "ts", [], [], [], "", []⟩ = "" :=
  (c6_normalize_structure ⟨"konu", "ts", [], [], [], "", []⟩).2 ⟨rfl, rfl, rfl⟩

/-- Claim C7: the grand total rendered in the markdown statistics table
and the total recorded in the JSON metadata block both equal the sum of
the three bucket lengths. -/
theorem c7_total_equals_sum (m : String) (d : ResearchData) :
    (∃ pre post : String,
      save_markdown_report d
        = pre ++ ("| **Toplam** | **"
            ++ Nat.repr (d.trend_results.length + d.problem_results.length
              + d.question_results.length) ++ "** |") ++ post) ∧
    (save_json_data m d).getField "metadata"
      = some (Json.obj [("model_used", Json.str m),
          ("total_results", Json.nat (d.trend_results.length + d.problem_results.length
            + d.question_results.length))]) := by
  constructor
  · refine ⟨"# 🔍 Pazar Araştırma Raporu\n\n**Konu:** " ++ d.topic
      ++ "  \n**Tarih:** " ++ d.timestamp
      ++ "  \n**Oluşturan:** Market & Trend Research Agent\n\n---\n\n"
      ++ d.analysis
      ++ "\n\n---\n\n## 📊 Araştırma İstatistikleri\n\n| Kategori | Sonuç Sayısı |\n|----------|--------------|\n| Trend Sonuçları | "
      ++ Nat.repr d.trend_results.length
      ++ " |\n| Sorun/Şikayet Sonuçları | "
      ++ Nat.repr d.problem_results.length
      ++ " |\n| Soru/Çözüm Sonuçları | "
      ++ Nat.repr d.question_results.length
      ++ " |\n",
      "\n\n---\n\n## 🔗 Kaynak URL\x27leri\n\n### Trend Kaynakları\n"
      ++ format_url_list d.trend_results
      ++ "\n\n### Sorun/Şikayet Kaynakları\n"
      ++ format_url_list d.problem_results
      ++ "\n\n### Soru/Çözüm Kaynakları\n"
      ++ format_url_list d.question_results
      ++ "\n\n---\n\n*Bu rapor, Market & Trend Research Agent tarafından otomatik olarak oluşturulmuştur.*\n",
      ?_⟩
    simp only [save_markdown_report, strAppend_assoc]
  · rfl

/-- Claim C8: an empty bucket renders the fixed no-results placeholder, a
non-empty bucket renders exactly one link line per result (title as text,
url as target) in bucket order, and the document form embeds the three
rendered link lists in its link sections. -/
theorem c8_url_list_rendering (d : ResearchData) (rs : List SearchResult) :
    format_url_list [] = "- Sonuç bulunamadı" ∧
    (rs ≠ [] →
      format_url_list rs = pyJoin "\n" (format_url_lines rs) ∧
      format_url_lines rs
        = rs.map (fun r => "- [" ++ r.title ++ "](" ++ r.url ++ ")")) ∧
    (∃ a b c e : String,
      save_markdown_report d
        = a ++ format_url_list d.trend_results ++ b ++ format_url_list d.problem_results
          ++ c ++ format_url_list d.question_results ++ e) := by
  refine ⟨rfl, ?_, ?_⟩
  · intro h
    exact ⟨by simp [format_url_list, h], format_url_lines_eq rs⟩
  · refine ⟨"# 🔍 Pazar Araştırma Raporu\n\n**Konu:** " ++ d.topic
      ++ "  \n**Tarih:** " ++ d.timestamp
      ++ "  \n**Oluşturan:** Market & Trend Research Agent\n\n---\n\n"
      ++ d.analysis
      ++ "\n\n---\n\n## 📊 Araştırma İstatistikleri\n\n| Kategori | Sonuç Sayısı |\n|----------|--------------|\n| Trend Sonuçları | "
      ++ Nat.repr d.trend_results.length
      ++ " |\n| Sorun/Şikayet Sonuçları | "
      ++ Nat.repr d.problem_results.length
      ++ " |\n| Soru/Çözüm Sonuçları | "
      ++ Nat.repr d.question_results.length
      ++ " |\n"
      ++ ("| **Toplam** | **"
        ++ Nat.repr (d.trend_results.length + d.problem_results.length
          + d.question_results.length) ++ "** |")
      ++ "\n\n---\n\n## 🔗 Kaynak URL\x27leri\n\n### Trend Kaynakları\n",
      "\n\n### Sorun/Şikayet Kaynakları\n",
      "\n\n### Soru/Çözüm Kaynakları\n",
      "\n\n---\n\n*Bu rapor, Market & Trend Research Agent tarafından otomatik olarak oluşturulmuştur.*\n",
      ?_⟩
    simp only [save_markdown_report, strAppend_assoc]

/-- Witness for C8: a one-element bucket renders exactly its one link
line. -/
theorem c8_witness :
    format_url_lines [⟨"A", "ua", "", 0⟩]
      = ([⟨"A", "ua", "", 0⟩] : List SearchResult).map
          (fun r => "- [" ++ r.title ++ "](" ++ r.url ++ ")") :=
  ((c8_url_list_rendering ⟨"t", "ts", [], [], [], "", []⟩
    [⟨"A", "ua", "", 0⟩]).2.1 (by decide)).2

/-- Claim C9: a successful search keeps the provider order exactly (same
length, i-th output converts the i-th provider item; no re-ranking,
filtering or deduplication), and the final record's buckets are exactly
the three per-query search outputs (no later stage mutates them). -/
theorem c9_order_preserved (search : SearchProvider) (llm : LlmProvider)
    (model topic ts : String) (year n : Nat) (q : String) (resp : TavilyResponse)
    (h : search q n = Except.ok resp) :
    ((execute_search search q n).1.length = (resp.results.getD []).length ∧
      ∀ i : Nat, (execute_search search q n).1[i]?
        = ((resp.results.getD [])[i]?).map mkSearchResult) ∧
    ((research search llm model topic ts year n).1.trend_results
        = (execute_search search ((generate_queries topic year).trend) n).1 ∧
      (research search llm model topic ts year n).1.problem_results
        = (execute_search search ((generate_queries topic year).problem) n).1 ∧
      (research search llm model topic ts year n).1.question_results
        = (execute_search search ((generate_queries topic year).question) n).1) := by
  refine ⟨⟨?_, ?_⟩, ?_, ?_, ?_⟩
  · simp [execute_search, h]
  · intro i
    simp [execute_search, h]
  · simp only [research, research_analysis_stage]
    split <;> rfl
  · simp only [research, research_analysis_stage]
    split <;> rfl
  · simp only [research, research_analysis_stage]
    split <;> rfl

/-- Witness for C9: a concrete two-item response keeps both items. -/
theorem c9_witness :
    (execute_search
        (fun _ _ => Except.ok ⟨some [⟨some "A", some "u", none, none⟩,
          ⟨none, none, some "c", some 1⟩]⟩) "q" 3).1.length
      = ((TavilyResponse.mk (some [⟨some "A", some "u", none, none⟩,
          ⟨none, none, some "c", some 1⟩])).results.getD []).length :=
  (c9_order_preserved
    (fun _ _ => Except.ok ⟨some [⟨some "A", some "u", none, none⟩,
      ⟨none, none, some "c", some 1⟩]⟩)
    (fun _ _ => Except.ok "rapor") "m" "t" "ts" 2026 3 "q"
    ⟨some [⟨some "A", some "u", none, none⟩, ⟨none, none, some "c", some 1⟩]⟩
    rfl).1.1

/-- Claim C10: the normalized content strips to empty exactly when all
three buckets are empty (one result in any bucket forces the non-empty
section header into the content), hence the insufficient-data fallback
(zero LLM calls) fires exactly when all three buckets are empty. -/
theorem c10_fallback_iff_all_empty (llm : LlmProvider) (model topic : String)
    (d : ResearchData) :
    (pyStrip (prepare_content_for_analysis d) = "" ↔
      d.trend_results = [] ∧ d.problem_results = [] ∧ d.question_results = []) ∧
    (countLlmCalls (research_analysis_stage llm model topic d).2 = 0 ↔
      d.trend_results = [] ∧ d.problem_results = [] ∧ d.question_results = []) := by
  have hmain : pyStrip (prepare_content_for_analysis d) = "" ↔
      d.trend_results = [] ∧ d.problem_results = [] ∧ d.question_results = [] := by
    constructor
    · exact buckets_empty_of_strip_empty d
    · rintro ⟨h1, h2, h3⟩
      rw [prepare_empty_of_buckets_empty d h1 h2 h3]
      rfl
  refine ⟨hmain, ?_⟩
  by_cases hc : pyStrip (prepare_content_for_analysis d) = ""
  · simp only [research_analysis_stage]
    rw [if_pos hc]
    constructor
    · intro _
      exact hmain.mp hc
    · intro _
      rfl
  · simp only [research_analysis_stage]
    rw [if_neg hc]
    constructor
    · intro h0
      exact absurd h0 (by simp [countLlmCalls, analyze_with_llm, Event.isLlm])
    · intro hall
      exact absurd (hmain.mpr hall) hc
